import Mathlib

/-!
Verification of the OPAL locking-range management core
(`src/lib/luks2/hw_opal/hw_opal.c`, cryptsetup).

The C code drives a self-encrypting drive through `ioctl` calls on an open
device handle.  We embed each public operation as a pure function over an
`Env` that fixes the outcome of every external interaction (open results,
ioctl statuses, the locking-range status the drive reports, allocation
success).  Each operation returns its C return value together with a trace
of the observable events it performed: ioctl calls (with the arguments the
claims care about), secure-buffer allocations and frees (numbered in
allocation order), key-buffer zeroization, and error-log emissions of the
range attribute verifier.

Constants are those of `linux/sed-opal.h` and `errno.h`:
`OPAL_KEY_MAX = 256`, `SECTOR_SIZE = 512`, lock states `OPAL_RO = 1`,
`OPAL_RW = 2`, `OPAL_LK = 4`, status flags `OPAL_FL_SUPPORTED = 1`,
`OPAL_FL_LOCKING_SUPPORTED = 2`, `OPAL_FL_LOCKING_ENABLED = 4`, and
`EPERM = 1`, `EIO = 5`, `ENOMEM = 12`, `EINVAL = 22`, `ENOTSUP = 95`.
-/

namespace HwOpal

def OPAL_KEY_MAX : Nat := 256

def SECTOR_SIZE : Nat := 512

/-- Bound of the OPAL status table: `_OPAL_STATUS_MAX = OPAL_STATUS_FAIL + 1 = 0x40`. -/
def OPAL_STATUS_MAX : Nat := 64

/-- `ioctl` request codes issued by the core, with the arguments relevant to
the claims (`addUsrToLr` carries the requested lock state, `lrSetup` the
configured range start/length, `lockUnlock` the requested lock state). -/
inductive IoctlCall where
  | getStatus
  | getGeometry
  | getLrStatus
  | takeOwnership
  | activateLsp
  | eraseLr
  | secureEraseLr
  | activateUsr
  | addUsrToLr (l_state : Nat)
  | setPw
  | lrSetup (range_start range_length : Nat)
  | lockUnlock (l_state : Nat)
  | save
  | psidRevert
  deriving DecidableEq

/-- Mismatches logged by `opal_range_check_attributes_fd`. -/
inductive Mismatch where
  | offset
  | length
  | lockDisabled
  | readLock
  | writeLock
  deriving DecidableEq

/-- Observable events of one operation, in program order.  `alloc i` is a
successful `crypt_safe_alloc` (buffers numbered in allocation order),
`free i` the matching `crypt_safe_free` of a non-NULL pointer, `memzero`
a `crypt_safe_memzero` of a key buffer, `log m` an error log of the range
attribute verifier, `logResumeFail` the warning logged when the best-effort
save-for-resume call fails. -/
inductive Event where
  | ioctl (c : IoctlCall)
  | alloc (id : Nat)
  | allocFail
  | free (id : Nat)
  | memzero
  | log (m : Mismatch)
  | logResumeFail
  deriving DecidableEq

/-- The environment: outcomes of every external interaction an operation can
make.  `openOk` is the first `device_open` performed by the operation
(respectively by the status query it starts with), `openOk2` the second one
when the operation opens the device twice.  Ioctl fields give the value the
corresponding `ioctl` returns; `flags` is `opal_status.flags` reported by
`IOC_OPAL_GET_STATUS`; the `lrs_` fields are the `opal_lr_status` reported
by `IOC_OPAL_GET_LR_STATUS`; `allocOk n` tells whether the n-th
`crypt_safe_alloc` of the operation succeeds. -/
structure Env where
  openOk : Bool
  openOk2 : Bool
  getStatusR : Int
  flags : Nat
  geometryStatus : Int
  blockBytes : Nat
  takeOwnership : Int
  activateLsp : Int
  eraseLr : Int
  secureEraseLr : Int
  activateUsr : Int
  addUsrToLrRO : Int
  addUsrToLrRW : Int
  setPw : Int
  lrSetup : Int
  lockUnlockR : Int
  saveR : Int
  psidRevert : Int
  lrStatusR : Int
  lrs_range_start : Nat
  lrs_range_length : Nat
  lrs_RLE : Bool
  lrs_WLE : Bool
  lrs_l_state : Nat
  allocOk : Nat → Bool

/-- The ioctl calls of a trace, in order. -/
def ioctls (evs : List Event) : List IoctlCall :=
  evs.filterMap fun ev =>
    match ev with
    | .ioctl c => some c
    | _ => none

/-- Return code of an operation that can abort (`none` = a C `assert` failed
and the process aborted instead of returning). -/
def rcOf (x : Option (Int × List Event)) : Option Int :=
  x.map fun p => p.1

/-- Event trace of an operation that can abort (empty if it aborted). -/
def evOf (x : Option (Int × List Event)) : List Event :=
  (x.map fun p => p.2).getD []

/-- Modelled from the spec: `strerror` of libc (an external collaborator, not
part of this repository) — "negative values map to the platform's standard
error description".  Only its totality (it always yields a string) matters
to the claims; the exact text is platform-defined. -/
def strerror (e : Nat) : String := "system error " ++ toString e

/-- The designated-initializer table `opal_status_table[_OPAL_STATUS_MAX]`.
Array slots without an initializer (statuses 18 to 62, between
`OPAL_STATUS_AUTHORITY_LOCKED_OUT = 17` and `OPAL_STATUS_FAIL = 0x3F`) are
NULL in C, here `none`. -/
def opal_status_table (t : Nat) : Option String :=
  if t = 0 then some "success"
  else if t = 1 then some "not authorized"
  else if t = 2 then some "obsolete"
  else if t = 3 then some "SP busy"
  else if t = 4 then some "SP failed"
  else if t = 5 then some "SP disabled"
  else if t = 6 then some "SP frozen"
  else if t = 7 then some "no sessions available"
  else if t = 8 then some "uniqueness conflict"
  else if t = 9 then some "insufficient space"
  else if t = 10 then some "insufficient rows"
  else if t = 11 then some "invalid parameter"
  else if t = 12 then some "obsolete"
  else if t = 13 then some "obsolete"
  else if t = 14 then some "TPer malfunction"
  else if t = 15 then some "transaction failure"
  else if t = 16 then some "response overflow"
  else if t = 17 then some "authority locked out"
  else if t = 63 then some "unknown failure"
  else none

/-- `opal_status_to_string`: the C function returns a `const char *`, which
may be NULL (`none`) when it indexes an uninitialized table slot. -/
def opal_status_to_string (t : Int) : Option String :=
  if t < 0 then some (strerror (-t).toNat)
  else if t ≥ (OPAL_STATUS_MAX : Int) then some "unknown error"
  else opal_status_table t.toNat

/-- `opal_query_status`: open the device, issue `IOC_OPAL_GET_STATUS`, and
test `st.flags & expected` (any-bit test). -/
def opal_query_status (openOk : Bool) (e : Env) (expected : Nat) : Int × List Event :=
  if ¬ openOk then (-5, [])
  else if e.getStatusR < 0 then (-22, [.ioctl .getStatus])
  else (if e.flags &&& expected ≠ 0 then 1 else 0, [.ioctl .getStatus])

/-- `opal_supported`: queries `OPAL_FL_SUPPORTED | OPAL_FL_LOCKING_SUPPORTED = 3`. -/
def opal_supported (e : Env) : Int × List Event :=
  opal_query_status e.openOk e 3

/-- `opal_enabled`: queries `OPAL_FL_LOCKING_ENABLED = 4`.  The open used is
passed in because callers differ in which of their opens it is. -/
def opal_enabled (openOk : Bool) (e : Env) : Int × List Event :=
  opal_query_status openOk e 4

/-- The check sequence of `opal_range_check_attributes_fd` after the locking
range status has been fetched: each supplied expectation is evaluated in
order, each failure sets `r = -EINVAL` and logs, no check is skipped.
`offset`/`length` are `lrs->range_start * opal_block_bytes / SECTOR_SIZE`
(uint64 arithmetic) and likewise for the length; `read_locked` is
`l_state == OPAL_LK`; `write_locked` is `l_state & (OPAL_RO | OPAL_LK)`. -/
def offsetSectors (e : Env) : Nat :=
  e.lrs_range_start * e.blockBytes % 2 ^ 64 / SECTOR_SIZE

def lengthSectors (e : Env) : Nat :=
  e.lrs_range_length * e.blockBytes % 2 ^ 64 / SECTOR_SIZE

/-- `read_locked = (lrs->l_state == OPAL_LK)`. -/
def read_locked (e : Env) : Bool := decide (e.lrs_l_state = 4)

/-- `write_locked = !!(lrs->l_state & (OPAL_RO | OPAL_LK))`. -/
def write_locked (e : Env) : Bool := decide (e.lrs_l_state &&& 5 ≠ 0)

def opal_range_check_core (e : Env) (co cl : Option Nat) (cr cw : Option Bool) :
    Int × List Event :=
  let s1 : Int × List Event :=
    match co with
    | some v => if offsetSectors e ≠ v then (-22, [Event.log .offset]) else (0, [])
    | none => (0, [])
  let s2 : Int × List Event :=
    match cl with
    | some v => if lengthSectors e ≠ v then (-22, s1.2 ++ [Event.log .length]) else s1
    | none => s1
  let s3 : Int × List Event :=
    if e.lrs_RLE = false ∨ e.lrs_WLE = false then (-22, s2.2 ++ [Event.log .lockDisabled]) else s2
  let s4 : Int × List Event :=
    match cr with
    | some b => if read_locked e ≠ b then (-22, s3.2 ++ [Event.log .readLock]) else s3
    | none => s3
  let s5 : Int × List Event :=
    match cw with
    | some b => if write_locked e ≠ b then (-22, s4.2 ++ [Event.log .writeLock]) else s4
    | none => s4
  s5

/-- `opal_range_check_attributes_fd`: geometry query, allocate an
`opal_lr_status`, fetch the range status, run the checks, free the buffer.
`nid` is the operation-wide index of its allocation; the result carries the
next free index. -/
def opal_range_check_attributes_fd (e : Env) (nid : Nat)
    (co cl : Option Nat) (cr cw : Option Bool) : Int × List Event × Nat :=
  if e.geometryStatus ≠ 0 then (-22, [.ioctl .getGeometry], nid)
  else if ¬ e.allocOk nid then (-12, [.ioctl .getGeometry, .allocFail], nid + 1)
  else if e.lrStatusR ≠ 0 then
    (-22, [.ioctl .getGeometry, .alloc nid, .ioctl .getLrStatus, .free nid], nid + 1)
  else
    let c := opal_range_check_core e co cl cr cw
    (c.1, [.ioctl .getGeometry, .alloc nid, .ioctl .getLrStatus] ++ c.2 ++ [.free nid], nid + 1)

/-- The pointer variables of `opal_setup_ranges` whose buffers the `out`
label frees (`crypt_safe_free` of NULL is a no-op, hence `Option`).  Fields
hold the allocation index of the buffer the pointer currently refers to. -/
structure Ptrs where
  activate : Option Nat := none
  user_session : Option Nat := none
  user_add_to_lr : Option Nat := none
  new_pw : Option Nat := none
  setup : Option Nat := none
  lock : Option Nat := none

/-- One `crypt_safe_free` call: emits a `free` event only for a non-NULL pointer. -/
def freeOpt (p : Option Nat) : List Event :=
  match p with
  | none => []
  | some i => [Event.free i]

/-- The `out` label of `opal_setup_ranges`: frees the six pointers in source
order and returns `r`. -/
def setupOut (r : Int) (evs : List Event) (p : Ptrs) : Int × List Event :=
  (r, evs ++ freeOpt p.activate ++ freeOpt p.user_session ++ freeOpt p.user_add_to_lr
        ++ freeOpt p.new_pw ++ freeOpt p.setup ++ freeOpt p.lock)

/-- The common tail of `opal_setup_ranges` after the
ownership-taking/erase branch: activate the user authority, add it to the
range read-only then read-write, set its password, configure the range
(note: `range_start`/`range_length` are submitted exactly as given by the
caller, with RLE and WLE set), lock it, and verify.  The second
`user_session = crypt_safe_alloc(...)` overwrites the pointer, so the `out`
frees only the new buffer. -/
def setupTail (e : Env) (rangeStart rangeLength : Nat)
    (evs : List Event) (nid : Nat) (p : Ptrs) : Int × List Event :=
  if ¬ e.allocOk nid then setupOut (-12) (evs ++ [.allocFail]) { p with user_session := none }
  else
  let p := { p with user_session := some nid }
  let evs := evs ++ [.alloc nid, .ioctl .activateUsr]
  if e.activateUsr ≠ 0 then setupOut (-22) evs p
  else
  if ¬ e.allocOk (nid + 1) then setupOut (-12) (evs ++ [.allocFail]) p
  else
  let p := { p with user_add_to_lr := some (nid + 1) }
  let evs := evs ++ [.alloc (nid + 1), .ioctl (.addUsrToLr 1)]
  if e.addUsrToLrRO ≠ 0 then setupOut (-22) evs p
  else
  let evs := evs ++ [.ioctl (.addUsrToLr 2)]
  if e.addUsrToLrRW ≠ 0 then setupOut (-22) evs p
  else
  if ¬ e.allocOk (nid + 2) then setupOut (-12) (evs ++ [.allocFail]) p
  else
  let p := { p with new_pw := some (nid + 2) }
  let evs := evs ++ [.alloc (nid + 2), .ioctl .setPw]
  if e.setPw ≠ 0 then setupOut (-22) evs p
  else
  if ¬ e.allocOk (nid + 3) then setupOut (-12) (evs ++ [.allocFail]) p
  else
  let p := { p with setup := some (nid + 3) }
  let evs := evs ++ [.alloc (nid + 3), .ioctl (.lrSetup rangeStart rangeLength)]
  if e.lrSetup ≠ 0 then setupOut (-22) evs p
  else
  if ¬ e.allocOk (nid + 4) then setupOut (-12) (evs ++ [.allocFail]) p
  else
  let p := { p with lock := some (nid + 4) }
  let evs := evs ++ [.alloc (nid + 4), .ioctl (.lockUnlock 4)]
  if e.lockUnlockR ≠ 0 then setupOut (-22) evs p
  else
  let c := opal_range_check_attributes_fd e (nid + 5)
            (some rangeStart) (some rangeLength) (some true) (some true)
  setupOut c.1 (evs ++ c.2.1) p

/-- `opal_setup_ranges`.  `vkLen` is `vk->keylength`, `adminLen` is
`admin_key_len`.  `none` models the abort of
`assert(vk->keylength <= OPAL_KEY_MAX)`.  The function opens the device,
queries whether locking was ever enabled, then either takes ownership and
activates the locking SP (never enabled) or erases the target range with a
secure-erase fallback (already enabled), and runs the common tail. -/
def opal_setup_ranges (e : Env) (vkLen rangeStart rangeLength adminLen : Nat) :
    Option (Int × List Event) :=
  if vkLen > OPAL_KEY_MAX then none
  else some (
  if adminLen > OPAL_KEY_MAX then (-22, [])
  else if ¬ e.openOk then (-5, [])
  else
  let qe := opal_enabled e.openOk2 e
  if qe.1 < 0 then (qe.1, qe.2)
  else if qe.1 = 0 then
    if ¬ e.allocOk 0 then setupOut (-12) (qe.2 ++ [.allocFail]) {}
    else
    let p : Ptrs := { activate := some 0 }
    let evs := qe.2 ++ [.alloc 0, .ioctl .takeOwnership]
    if e.takeOwnership < 0 then setupOut (-95) evs p
    else if e.takeOwnership = 1 then setupOut (-1) evs p
    else if e.takeOwnership ≠ 0 then setupOut (-22) evs p
    else
    let evs := evs ++ [.ioctl .activateLsp]
    if e.activateLsp ≠ 0 then setupOut (-22) evs p
    else setupTail e rangeStart rangeLength evs 1 p
  else
    if ¬ e.allocOk 0 then setupOut (-12) (qe.2 ++ [.allocFail]) {}
    else
    let p : Ptrs := { user_session := some 0 }
    let evs := qe.2 ++ [.alloc 0, .ioctl .eraseLr]
    if e.eraseLr ≠ 0 then
      let evs := evs ++ [.ioctl .secureEraseLr]
      if e.secureEraseLr ≠ 0 then setupOut (-22) evs p
      else setupTail e rangeStart rangeLength evs 1 p
    else setupTail e rangeStart rangeLength evs 1 p)

/-- `opal_lock_unlock`.  `vkLen` is `vk->keylength` when a volume key is
passed (`none` models a NULL `vk`).  `lock = true` requests locking
(`OPAL_LK = 4`), `lock = false` unlocking (`OPAL_RW = 2`).  The key is
copied only when unlocking, guarded by `assert(vk->keylength <=
OPAL_KEY_MAX)` (abort = `none`), and zeroed at `out` on every path that
reaches it.  On successful unlock a best-effort `IOC_OPAL_SAVE` follows;
its failure is logged and `r` forced to 0. -/
def opal_lock_unlock (e : Env) (vkLen : Option Nat) (lock : Bool) :
    Option (Int × List Event) :=
  let s := opal_supported e
  if s.1 ≤ 0 then some (-95, s.2)
  else if ¬ lock ∧ vkLen = none then some (-22, s.2)
  else if ¬ e.openOk2 then some (-5, s.2)
  else if ¬ lock ∧ vkLen.getD 0 > OPAL_KEY_MAX then none
  else some (
  let fin : Int → List Event → Int × List Event := fun r evs =>
    (r, if ¬ lock then evs ++ [Event.memzero] else evs)
  let evs := s.2 ++ [.ioctl (.lockUnlock (if lock then 4 else 2))]
  if e.lockUnlockR < 0 then fin (-95) evs
  else if e.lockUnlockR = 1 then fin (-1) evs
  else if e.lockUnlockR ≠ 0 then fin (-22) evs
  else if ¬ lock then
    let evs := evs ++ [.ioctl .save]
    if e.saveR ≠ 0 then fin 0 (evs ++ [.logResumeFail])
    else fin e.saveR evs
  else fin e.lockUnlockR evs)

/-- `opal_factory_reset`: size-check the PSID, open, issue
`IOC_OPAL_PSID_REVERT_TPR`, classify (`NOT_AUTHORIZED` → `-EPERM`, other
failures → `-EINVAL`, negative → `-ENOTSUP`), and zero the key copy at
`out` (the early returns precede the key copy). -/
def opal_factory_reset (e : Env) (passwordLen : Nat) : Int × List Event :=
  if passwordLen > OPAL_KEY_MAX then (-22, [])
  else if ¬ e.openOk then (-5, [])
  else
  let evs : List Event := [.ioctl .psidRevert]
  if e.psidRevert < 0 then (-95, evs ++ [.memzero])
  else if e.psidRevert = 1 then (-1, evs ++ [.memzero])
  else if e.psidRevert ≠ 0 then (-22, evs ++ [.memzero])
  else (e.psidRevert, evs ++ [.memzero])

/-- `opal_reset_segment`: size-check the password, require locking to be
enabled (`opal_enabled <= 0` → `-EINVAL`), allocate the session, open the
device, erase the range as Admin1, on failure fall back to secure erase,
and after a successful secure erase issue one `IOC_OPAL_LR_SETUP` with
`range_start = 0, range_length = 0` to disable the range by hand. -/
def opal_reset_segment (e : Env) (passwordLen : Nat) : Int × List Event :=
  if passwordLen > OPAL_KEY_MAX then (-22, [])
  else
  let qe := opal_enabled e.openOk e
  if qe.1 ≤ 0 then (-22, qe.2)
  else if ¬ e.allocOk 0 then (-12, qe.2 ++ [.allocFail])
  else
  let evs := qe.2 ++ [Event.alloc 0]
  if ¬ e.openOk2 then (-5, evs ++ [.free 0])
  else
  let evs := evs ++ [Event.ioctl .eraseLr]
  if e.eraseLr = 0 then (e.eraseLr, evs ++ [.free 0])
  else
  let evs := evs ++ [Event.ioctl .secureEraseLr]
  if e.secureEraseLr ≠ 0 then (-22, evs ++ [.free 0])
  else if ¬ e.allocOk 1 then (-12, evs ++ [.allocFail, .free 0])
  else
  let evs := evs ++ [Event.alloc 1, Event.ioctl (.lrSetup 0 0)]
  if e.lrSetup ≠ 0 then (-22, evs ++ [.free 0, .free 1])
  else (e.lrSetup, evs ++ [.free 0, .free 1])

/-- An environment in which the device opens, every ioctl succeeds, every
allocation succeeds, locking is already enabled (`flags = 7`), the drive's
logical block size is 512, and the drive reports back exactly the range
configuration submitted for start 8 / length 16, with both enable flags set
and the range fully locked. -/
def allOkEnv : Env where
  openOk := true
  openOk2 := true
  getStatusR := 0
  flags := 7
  geometryStatus := 0
  blockBytes := 512
  takeOwnership := 0
  activateLsp := 0
  eraseLr := 0
  secureEraseLr := 0
  activateUsr := 0
  addUsrToLrRO := 0
  addUsrToLrRW := 0
  setPw := 0
  lrSetup := 0
  lockUnlockR := 0
  saveR := 0
  psidRevert := 0
  lrStatusR := 0
  lrs_range_start := 8
  lrs_range_length := 16
  lrs_RLE := true
  lrs_WLE := true
  lrs_l_state := 4
  allocOk := fun _ => true

/-- `allOkEnv` on a drive whose native logical block size is 4096 bytes. -/
def env4k : Env := { allOkEnv with blockBytes := 4096 }

/-- A drive advertising Opal support with locking never enabled
(`flags = 3`), whose take-ownership call reports
`OPAL_STATUS_NOT_AUTHORIZED`. -/
def envC2 : Env := { allOkEnv with flags := 3, takeOwnership := 1 }

/-- C1: `opal_setup_ranges` submits `range_start`/`range_length` to
`IOC_OPAL_LR_SETUP` exactly as given by the caller, with no sector → native
logical-block conversion, while `opal_range_check_attributes_fd` converts
the drive's reported native-block values back to sectors.  On a drive with
4096-byte logical blocks that faithfully stores what was configured
(`env4k`, which reports back range start 8 / length 16, fully locked, both
enable flags set), every control call succeeds yet the round trip reports
an offset mismatch (8·4096/512 = 64 ≠ 8) and a length mismatch, and
`opal_setup_ranges` returns `-EINVAL` — the claimed conversion and
offset/length match fail; the same run on a 512-byte-block drive
succeeds. -/
theorem setup_range_roundtrip_fails_on_4k_blocks :
    rcOf (opal_setup_ranges env4k 32 8 16 32) = some (-22) ∧
    IoctlCall.lrSetup 8 16 ∈ ioctls (evOf (opal_setup_ranges env4k 32 8 16 32)) ∧
    Event.log .offset ∈ evOf (opal_setup_ranges env4k 32 8 16 32) ∧
    Event.log .length ∈ evOf (opal_setup_ranges env4k 32 8 16 32) ∧
    rcOf (opal_setup_ranges allOkEnv 32 8 16 32) = some 0 := by
  decide

/-- C9: on the locking-already-enabled path of `opal_setup_ranges`, the
`user_session` buffer allocated for the erase step (allocation 0, holding a
copy of the admin key) is overwritten by the second
`user_session = crypt_safe_alloc(...)` and is never freed (hence never
zeroed by the zero-on-free allocator), even on a fully successful run —
contradicting the release-on-every-exit-path requirement. -/
theorem setup_range_leaks_first_admin_session_buffer :
    Event.alloc 0 ∈ evOf (opal_setup_ranges allOkEnv 32 8 16 32) ∧
    Event.free 0 ∉ evOf (opal_setup_ranges allOkEnv 32 8 16 32) ∧
    rcOf (opal_setup_ranges allOkEnv 32 8 16 32) = some 0 := by
  decide

/-- C3 counterexample: `opal_status_to_string 18` indexes an uninitialized
slot of `opal_status_table` (statuses 18..62 have no designated
initializer) and returns NULL (`none`) — not a non-null table entry. -/
theorem status_to_string_gap_is_null : opal_status_to_string 18 = none := by
  decide

/-- C3 (amended): negative codes map to the platform error description,
codes at or above `_OPAL_STATUS_MAX = 64` map to "unknown error", 0 maps
to "success", the defined statuses 0..17 and 63 map to non-null entries,
but the undefined statuses 18..62 map to a NULL table entry. -/
theorem status_to_string_classification (t : Int) :
    (t < 0 → opal_status_to_string t = some (strerror (-t).toNat)) ∧
    ((OPAL_STATUS_MAX : Int) ≤ t → opal_status_to_string t = some "unknown error") ∧
    opal_status_to_string 0 = some "success" ∧
    (0 ≤ t → t ≤ 17 → (opal_status_to_string t).isSome = true) ∧
    (opal_status_to_string 63).isSome = true ∧
    (18 ≤ t → t ≤ 62 → opal_status_to_string t = none) := by
  refine ⟨fun h => ?_, fun h => ?_, by decide, fun h0 h17 => ?_, by decide, fun h18 h62 => ?_⟩
  · rw [opal_status_to_string, if_pos h]
  · rw [opal_status_to_string, if_neg (by omega), if_pos h]
  · interval_cases t <;> decide
  · interval_cases t <;> decide

theorem status_to_string_classification_witness :
    opal_status_to_string (-3) = some (strerror 3) ∧
    opal_status_to_string 100 = some "unknown error" ∧
    (opal_status_to_string 5).isSome = true ∧
    opal_status_to_string 20 = none :=
  ⟨(status_to_string_classification (-3)).1 (by decide),
   (status_to_string_classification 100).2.1 (by decide),
   (status_to_string_classification 5).2.2.2.1 (by decide) (by decide),
   (status_to_string_classification 20).2.2.2.2.2 (by decide) (by decide)⟩

/-- C4 counterexample: a user volume key longer than `OPAL_KEY_MAX = 256`
is not rejected with `-EINVAL`: `opal_setup_ranges` and unlocking via
`opal_lock_unlock` hit `assert(vk->keylength <= OPAL_KEY_MAX)` and abort
(`none`) instead of returning the invalid classification. -/
theorem oversized_volume_key_aborts :
    opal_setup_ranges allOkEnv 300 8 16 32 = none ∧
    opal_lock_unlock allOkEnv (some 300) false = none := by
  decide

/-- C4 (amended): an oversized admin key (`opal_setup_ranges`) or password
(`opal_factory_reset`, `opal_reset_segment`) is rejected with `-EINVAL`
before any control call (the trace is empty); an oversized caller-supplied
user volume key is instead guarded by a C `assert` that aborts the process
(modelled as `none`) — in `opal_lock_unlock` only after the capability
status query has already been issued. -/
theorem key_length_validation (e : Env) (vkLen rs rl adminLen pwLen : Nat) :
    (vkLen ≤ OPAL_KEY_MAX → adminLen > OPAL_KEY_MAX →
      opal_setup_ranges e vkLen rs rl adminLen = some (-22, [])) ∧
    (pwLen > OPAL_KEY_MAX → opal_factory_reset e pwLen = (-22, [])) ∧
    (pwLen > OPAL_KEY_MAX → opal_reset_segment e pwLen = (-22, [])) ∧
    (vkLen > OPAL_KEY_MAX → opal_setup_ranges e vkLen rs rl adminLen = none) ∧
    (vkLen > OPAL_KEY_MAX → (opal_supported e).1 > 0 → e.openOk2 = true →
      opal_lock_unlock e (some vkLen) false = none) := by
  refine ⟨fun hv ha => ?_, fun hp => ?_, fun hp => ?_, fun hv => ?_, fun hv hs ho2 => ?_⟩
  · rw [opal_setup_ranges, if_neg (by omega), if_pos ha]
  · rw [opal_factory_reset, if_pos hp]
  · rw [opal_reset_segment, if_pos hp]
  · rw [opal_setup_ranges, if_pos hv]
  · rw [opal_lock_unlock]
    simp only [ho2]
    rw [if_neg (by omega), if_neg (by simp), if_neg (by simp), if_pos (by simpa using hv)]

theorem key_length_validation_witness :
    opal_setup_ranges allOkEnv 32 8 16 300 = some (-22, []) ∧
    opal_factory_reset allOkEnv 300 = (-22, []) ∧
    opal_reset_segment allOkEnv 300 = (-22, []) ∧
    opal_setup_ranges allOkEnv 300 8 16 32 = none ∧
    opal_lock_unlock allOkEnv (some 300) false = none :=
  ⟨(key_length_validation allOkEnv 32 8 16 300 300).1 (by decide) (by decide),
   (key_length_validation allOkEnv 32 8 16 300 300).2.1 (by decide),
   (key_length_validation allOkEnv 32 8 16 300 300).2.2.1 (by decide),
   (key_length_validation allOkEnv 300 8 16 32 300).2.2.2.1 (by decide),
   (key_length_validation allOkEnv 300 8 16 32 300).2.2.2.2 (by decide) (by decide) rfl⟩

/-- C2: on a drive where locking has never been enabled (`opal_enabled`
reports 0), `opal_setup_ranges` issues the take-ownership call right after
the status query, before any range-specific call, and when it returns
`OPAL_STATUS_NOT_AUTHORIZED` the whole sequence short-circuits with
`-EPERM`: the only control calls in the trace are the status query and the
take-ownership call. -/
theorem setup_never_enabled_notauth (e : Env) (vkLen rs rl adminLen : Nat)
    (hv : vkLen ≤ OPAL_KEY_MAX) (hal : adminLen ≤ OPAL_KEY_MAX)
    (ho : e.openOk = true) (ho2 : e.openOk2 = true)
    (hs : 0 ≤ e.getStatusR) (hf : e.flags &&& 4 = 0)
    (ha : e.allocOk 0 = true) (ht : e.takeOwnership = 1) :
    rcOf (opal_setup_ranges e vkLen rs rl adminLen) = some (-1) ∧
    ioctls (evOf (opal_setup_ranges e vkLen rs rl adminLen)) =
      [.getStatus, .takeOwnership] := by
  have h1 : ¬ vkLen > OPAL_KEY_MAX := Nat.not_lt.mpr hv
  have h2 : ¬ adminLen > OPAL_KEY_MAX := Nat.not_lt.mpr hal
  have h3 : ¬ e.getStatusR < 0 := not_lt.mpr hs
  simp [opal_setup_ranges, opal_enabled, opal_query_status, setupOut, freeOpt,
        ioctls, rcOf, evOf, h1, h2, h3, ho, ho2, hf, ha, ht]

theorem setup_never_enabled_notauth_witness :
    rcOf (opal_setup_ranges envC2 32 8 16 32) = some (-1) ∧
    ioctls (evOf (opal_setup_ranges envC2 32 8 16 32)) =
      [.getStatus, .takeOwnership] :=
  setup_never_enabled_notauth envC2 32 8 16 32 (by decide) (by decide) rfl rfl
    (by decide) (by decide) rfl (by decide)

/-- When the geometry query, the status-buffer allocation and the range
status fetch all succeed, `opal_range_check_attributes_fd` returns the
result of the check sequence, with the checker's own buffer freed. -/
theorem range_check_fd_success (e : Env) (nid : Nat) (co cl : Option Nat)
    (cr cw : Option Bool) (hg : e.geometryStatus = 0) (ha : e.allocOk nid = true)
    (hl : e.lrStatusR = 0) :
    opal_range_check_attributes_fd e nid co cl cr cw =
      ((opal_range_check_core e co cl cr cw).1,
       [.ioctl .getGeometry, .alloc nid, .ioctl .getLrStatus] ++
         (opal_range_check_core e co cl cr cw).2 ++ [.free nid], nid + 1) := by
  simp [opal_range_check_attributes_fd, hg, ha, hl]

/-- A clear enable flag always forces `-EINVAL`, whatever expectations
were passed. -/
theorem core_flags_r (e : Env) (co cl : Option Nat) (cr cw : Option Bool)
    (h : e.lrs_RLE = false ∨ e.lrs_WLE = false) :
    (opal_range_check_core e co cl cr cw).1 = -22 := by
  rcases co with _ | v <;> rcases cl with _ | w <;>
    rcases cr with _ | b <;> rcases cw with _ | c <;>
    simp only [opal_range_check_core] <;> split_ifs <;>
    simp_all

/-- The offset mismatch is logged exactly when an offset expectation was
supplied and fails, whatever the other checks do. -/
theorem core_log_offset (e : Env) (co cl : Option Nat) (cr cw : Option Bool) :
    Event.log .offset ∈ (opal_range_check_core e co cl cr cw).2 ↔
      co ≠ none ∧ co ≠ some (offsetSectors e) := by
  rcases co with _ | v <;> rcases cl with _ | w <;>
    rcases cr with _ | b <;> rcases cw with _ | c <;>
    simp only [opal_range_check_core] <;> split_ifs <;>
    simp_all <;> omega

/-- The length mismatch is logged exactly when a length expectation was
supplied and fails. -/
theorem core_log_length (e : Env) (co cl : Option Nat) (cr cw : Option Bool) :
    Event.log .length ∈ (opal_range_check_core e co cl cr cw).2 ↔
      cl ≠ none ∧ cl ≠ some (lengthSectors e) := by
  rcases co with _ | v <;> rcases cl with _ | w <;>
    rcases cr with _ | b <;> rcases cw with _ | c <;>
    simp only [opal_range_check_core] <;> split_ifs <;>
    simp_all <;> omega

/-- The locking-disabled failure is logged exactly when an enable flag is
clear — independently of which expectations were supplied. -/
theorem core_log_lockd (e : Env) (co cl : Option Nat) (cr cw : Option Bool) :
    Event.log .lockDisabled ∈ (opal_range_check_core e co cl cr cw).2 ↔
      (e.lrs_RLE = false ∨ e.lrs_WLE = false) := by
  rcases co with _ | v <;> rcases cl with _ | w <;>
    rcases cr with _ | b <;> rcases cw with _ | c <;>
    simp only [opal_range_check_core] <;> split_ifs <;>
    simp_all

/-- The read-lock mismatch is logged exactly when a read-lock expectation
was supplied and differs from the derived `read_locked`. -/
theorem core_log_read (e : Env) (co cl : Option Nat) (cr cw : Option Bool) :
    Event.log .readLock ∈ (opal_range_check_core e co cl cr cw).2 ↔
      cr ≠ none ∧ cr ≠ some (read_locked e) := by
  rcases co with _ | v <;> rcases cl with _ | w <;>
    rcases cr with _ | b <;> rcases cw with _ | c <;>
    simp only [opal_range_check_core] <;> split_ifs <;>
    simp_all <;> tauto

/-- The write-lock mismatch is logged exactly when a write-lock expectation
was supplied and differs from the derived `write_locked`. -/
theorem core_log_write (e : Env) (co cl : Option Nat) (cr cw : Option Bool) :
    Event.log .writeLock ∈ (opal_range_check_core e co cl cr cw).2 ↔
      cw ≠ none ∧ cw ≠ some (write_locked e) := by
  rcases co with _ | v <;> rcases cl with _ | w <;>
    rcases cr with _ | b <;> rcases cw with _ | c <;>
    simp only [opal_range_check_core] <;> split_ifs <;>
    simp_all <;> tauto

/-- C5: under a successful status fetch, the range attribute verifier checks
both enable flags unconditionally (either flag clear yields `-EINVAL`
whatever expectations were passed), evaluates and logs every supplied
expectation independently of the other checks' outcomes, and derives
read-locked as `l_state == OPAL_LK` and write-locked as
`l_state & (OPAL_RO | OPAL_LK)`. -/
theorem range_check_all_expectations (e : Env) (nid : Nat) (co cl : Option Nat)
    (cr cw : Option Bool) (hg : e.geometryStatus = 0) (ha : e.allocOk nid = true)
    (hl : e.lrStatusR = 0) :
    ((e.lrs_RLE = false ∨ e.lrs_WLE = false) →
      (opal_range_check_attributes_fd e nid co cl cr cw).1 = -22) ∧
    (Event.log .offset ∈ (opal_range_check_attributes_fd e nid co cl cr cw).2.1 ↔
      co ≠ none ∧ co ≠ some (offsetSectors e)) ∧
    (Event.log .length ∈ (opal_range_check_attributes_fd e nid co cl cr cw).2.1 ↔
      cl ≠ none ∧ cl ≠ some (lengthSectors e)) ∧
    (Event.log .lockDisabled ∈ (opal_range_check_attributes_fd e nid co cl cr cw).2.1 ↔
      (e.lrs_RLE = false ∨ e.lrs_WLE = false)) ∧
    (Event.log .readLock ∈ (opal_range_check_attributes_fd e nid co cl cr cw).2.1 ↔
      cr ≠ none ∧ cr ≠ some (read_locked e)) ∧
    (Event.log .writeLock ∈ (opal_range_check_attributes_fd e nid co cl cr cw).2.1 ↔
      cw ≠ none ∧ cw ≠ some (write_locked e)) := by
  rw [range_check_fd_success e nid co cl cr cw hg ha hl]
  refine ⟨fun h => core_flags_r e co cl cr cw h, ?_, ?_, ?_, ?_, ?_⟩
  · simpa using core_log_offset e co cl cr cw
  · simpa using core_log_length e co cl cr cw
  · simpa using core_log_lockd e co cl cr cw
  · simpa using core_log_read e co cl cr cw
  · simpa using core_log_write e co cl cr cw

/-- A drive whose range reports a clear read-lock-enable flag and a
read-write (unlocked) state. -/
def envC5 : Env := { allOkEnv with lrs_RLE := false, lrs_l_state := 2 }

theorem range_check_all_expectations_witness :
    (opal_range_check_attributes_fd envC5 0 (some 9) (some 16) (some true) (some true)).1 = -22 ∧
    Event.log .offset ∈ (opal_range_check_attributes_fd envC5 0 (some 9) (some 16) (some true) (some true)).2.1 ∧
    Event.log .lockDisabled ∈ (opal_range_check_attributes_fd envC5 0 (some 9) (some 16) (some true) (some true)).2.1 ∧
    Event.log .readLock ∈ (opal_range_check_attributes_fd envC5 0 (some 9) (some 16) (some true) (some true)).2.1 ∧
    Event.log .length ∉ (opal_range_check_attributes_fd envC5 0 (some 9) (some 16) (some true) (some true)).2.1 := by
  have h := range_check_all_expectations envC5 0 (some 9) (some 16) (some true) (some true)
    rfl rfl rfl
  refine ⟨h.1 (Or.inl rfl), h.2.1.mpr (by decide), h.2.2.2.1.mpr (Or.inl rfl),
    h.2.2.2.2.1.mpr (by decide), fun hm => ?_⟩
  have h2 := h.2.2.1.mp hm
  revert h2
  decide

/-- C6: `opal_reset_segment` returns `-EINVAL` whenever locking is not
already enabled (no erase call is issued); when enabled, it erases the
range, and issues exactly one follow-up `IOC_OPAL_LR_SETUP` with
`range_start = 0, range_length = 0` if and only if plain erase failed and
secure erase succeeded. -/
theorem reset_segment_spec (e : Env) (pwLen : Nat) (hpw : pwLen ≤ OPAL_KEY_MAX)
    (ho : e.openOk = true) (ho2 : e.openOk2 = true) (hs : 0 ≤ e.getStatusR)
    (ha0 : e.allocOk 0 = true) (ha1 : e.allocOk 1 = true) :
    (e.flags &&& 4 = 0 → opal_reset_segment e pwLen = (-22, [.ioctl .getStatus])) ∧
    (e.flags &&& 4 ≠ 0 → e.eraseLr = 0 →
      (opal_reset_segment e pwLen).1 = 0 ∧
      ioctls (opal_reset_segment e pwLen).2 = [.getStatus, .eraseLr]) ∧
    (e.flags &&& 4 ≠ 0 → e.eraseLr ≠ 0 → e.secureEraseLr = 0 → e.lrSetup = 0 →
      (opal_reset_segment e pwLen).1 = 0 ∧
      ioctls (opal_reset_segment e pwLen).2 =
        [.getStatus, .eraseLr, .secureEraseLr, .lrSetup 0 0]) := by
  have h1 : ¬ pwLen > OPAL_KEY_MAX := Nat.not_lt.mpr hpw
  have h3 : ¬ e.getStatusR < 0 := not_lt.mpr hs
  refine ⟨fun hf => ?_, fun hf he => ?_, fun hf he hse hl => ?_⟩
  · simp [opal_reset_segment, opal_enabled, opal_query_status, ioctls,
          h1, h3, ho, ho2, ha0, ha1, hf]
  · simp [opal_reset_segment, opal_enabled, opal_query_status, ioctls,
          h1, h3, ho, ho2, ha0, ha1, hf, he]
  · simp [opal_reset_segment, opal_enabled, opal_query_status, ioctls,
          h1, h3, ho, ho2, ha0, ha1, hf, he, hse, hl]

/-- `allOkEnv` with a failing plain erase (status `OPAL_STATUS_SP_FAILED`). -/
def envErFail : Env := { allOkEnv with eraseLr := 4 }

theorem reset_segment_spec_witness :
    opal_reset_segment envC2 32 = (-22, [.ioctl .getStatus]) ∧
    ((opal_reset_segment allOkEnv 32).1 = 0 ∧
      ioctls (opal_reset_segment allOkEnv 32).2 = [.getStatus, .eraseLr]) ∧
    ((opal_reset_segment envErFail 32).1 = 0 ∧
      ioctls (opal_reset_segment envErFail 32).2 =
        [.getStatus, .eraseLr, .secureEraseLr, .lrSetup 0 0]) :=
  ⟨(reset_segment_spec envC2 32 (by decide) rfl rfl (by decide) rfl rfl).1 (by decide),
   (reset_segment_spec allOkEnv 32 (by decide) rfl rfl (by decide) rfl rfl).2.1
     (by decide) rfl,
   (reset_segment_spec envErFail 32 (by decide) rfl rfl (by decide) rfl rfl).2.2
     (by decide) (by decide) rfl rfl⟩

/-- C7: `opal_factory_reset` classifies `OPAL_STATUS_NOT_AUTHORIZED`
(a wrong PSID) as `-EPERM`, distinct from the `-EINVAL` returned for every
other non-success protocol status. -/
theorem factory_reset_wrong_psid (e : Env) (pwLen : Nat)
    (hpw : pwLen ≤ OPAL_KEY_MAX) (ho : e.openOk = true) :
    (e.psidRevert = 1 → (opal_factory_reset e pwLen).1 = -1) ∧
    (0 ≤ e.psidRevert → e.psidRevert ≠ 0 → e.psidRevert ≠ 1 →
      (opal_factory_reset e pwLen).1 = -22) ∧
    (-1 : Int) ≠ -22 := by
  have h1 : ¬ pwLen > OPAL_KEY_MAX := Nat.not_lt.mpr hpw
  refine ⟨fun hr => ?_, fun h0 hn hn1 => ?_, by decide⟩
  · simp [opal_factory_reset, h1, ho, hr]
  · simp [opal_factory_reset, h1, ho, hn, hn1, not_lt.mpr h0]

/-- A drive whose PSID revert reports `OPAL_STATUS_NOT_AUTHORIZED`. -/
def envPsidAuth : Env := { allOkEnv with psidRevert := 1 }

/-- A drive whose PSID revert reports `OPAL_STATUS_SP_DISABLED`. -/
def envPsidOther : Env := { allOkEnv with psidRevert := 5 }

theorem factory_reset_wrong_psid_witness :
    (opal_factory_reset envPsidAuth 32).1 = -1 ∧
    (opal_factory_reset envPsidOther 32).1 = -22 :=
  ⟨(factory_reset_wrong_psid envPsidAuth 32 (by decide) rfl).1 rfl,
   (factory_reset_wrong_psid envPsidOther 32 (by decide) rfl).2.1
     (by decide) (by decide) (by decide)⟩

/-- C8: after a successful unlock `opal_lock_unlock` issues the
save-for-resume call; whatever that call returns the operation returns 0,
and when it fails the failure is logged; when locking, the save call is
never issued. -/
theorem unlock_save_best_effort (e : Env) (len : Nat) (hlen : len ≤ OPAL_KEY_MAX)
    (ho : e.openOk = true) (ho2 : e.openOk2 = true) (hs : 0 ≤ e.getStatusR)
    (hf : e.flags &&& 3 ≠ 0) (hl : e.lockUnlockR = 0) :
    rcOf (opal_lock_unlock e (some len) false) = some 0 ∧
    IoctlCall.save ∈ ioctls (evOf (opal_lock_unlock e (some len) false)) ∧
    (e.saveR ≠ 0 → Event.logResumeFail ∈ evOf (opal_lock_unlock e (some len) false)) ∧
    IoctlCall.save ∉ ioctls (evOf (opal_lock_unlock e none true)) := by
  have h1 : ¬ len > OPAL_KEY_MAX := Nat.not_lt.mpr hlen
  have h3 : ¬ e.getStatusR < 0 := not_lt.mpr hs
  refine ⟨?_, ?_, fun hsv => ?_, ?_⟩
  · by_cases hsv : e.saveR = 0 <;>
      simp [opal_lock_unlock, opal_supported, opal_query_status, rcOf, evOf,
            h1, h3, ho, ho2, hf, hl, hsv]
  · by_cases hsv : e.saveR = 0 <;>
      simp [opal_lock_unlock, opal_supported, opal_query_status, ioctls, rcOf, evOf,
            h1, h3, ho, ho2, hf, hl, hsv]
  · simp [opal_lock_unlock, opal_supported, opal_query_status, rcOf, evOf,
          h1, h3, ho, ho2, hf, hl, hsv]
  · simp [opal_lock_unlock, opal_supported, opal_query_status, ioctls, rcOf, evOf,
          h3, ho, ho2, hf, hl]

/-- `allOkEnv` with a failing save-for-resume call. -/
def envSaveFail : Env := { allOkEnv with saveR := 4 }

theorem unlock_save_best_effort_witness :
    rcOf (opal_lock_unlock envSaveFail (some 32) false) = some 0 ∧
    Event.logResumeFail ∈ evOf (opal_lock_unlock envSaveFail (some 32) false) ∧
    IoctlCall.save ∉ ioctls (evOf (opal_lock_unlock envSaveFail none true)) := by
  have h := unlock_save_best_effort envSaveFail 32 (by decide) rfl rfl
    (by decide) (by decide) rfl
  exact ⟨h.1, h.2.2.1 (by decide), h.2.2.2⟩

/-- C10: `opal_supported` reports 1 exactly when at least one of
`OPAL_FL_SUPPORTED | OPAL_FL_LOCKING_SUPPORTED` (mask 3) is set — an
any-bit test — 0 exactly when both are clear, and in particular a drive
advertising only `OPAL_FL_SUPPORTED` (bit 0) is reported as supported. -/
theorem supported_any_bit (e : Env) (ho : e.openOk = true) (hs : 0 ≤ e.getStatusR) :
    ((opal_supported e).1 = 1 ↔ e.flags &&& 3 ≠ 0) ∧
    ((opal_supported e).1 = 0 ↔ e.flags &&& 3 = 0) ∧
    (e.flags &&& 1 ≠ 0 → (opal_supported e).1 = 1) := by
  have h3 : ¬ e.getStatusR < 0 := not_lt.mpr hs
  have key : e.flags &&& 3 &&& 1 = e.flags &&& 1 := by
    rw [Nat.land_assoc]
    norm_num
  refine ⟨?_, ?_, fun h1 => ?_⟩
  · by_cases hb : e.flags &&& 3 = 0 <;>
      simp [opal_supported, opal_query_status, ho, h3, hb]
  · by_cases hb : e.flags &&& 3 = 0 <;>
      simp [opal_supported, opal_query_status, ho, h3, hb]
  · have hb : e.flags &&& 3 ≠ 0 := by
      intro h0
      rw [← key, h0] at h1
      exact h1 rfl
    simp [opal_supported, opal_query_status, ho, h3, hb]

/-- A drive reporting only the Opal-supported bit, not locking support. -/
def envOnlyOpal : Env := { allOkEnv with flags := 1 }

/-- A drive reporting neither status bit. -/
def envNoBits : Env := { allOkEnv with flags := 0 }

theorem supported_any_bit_witness :
    (opal_supported envOnlyOpal).1 = 1 ∧ (opal_supported envNoBits).1 = 0 :=
  ⟨(supported_any_bit envOnlyOpal rfl (by decide)).2.2 (by decide),
   (supported_any_bit envNoBits rfl (by decide)).2.1.mpr (by decide)⟩

end HwOpal
